import Mathlib

/-!
Verification of the M-Pesa payment lifecycle core of the Ujumbe360 school
management system (`lms/views.py`, `lms/models.py`).

The Python code is shallowly embedded: JSON values produced by `json.loads`
become the inductive `PyVal`; Django model rows become Lean structures; the
database becomes explicit lists threaded through the handlers; an uncaught
Python exception (which Django turns into an HTTP 500) is modelled as
`Option.none` in handler results.
-/

namespace Ujumbe

/-- A Python value as produced by `json.loads` (floats do not occur in the
payloads handled by the payment code, so JSON numbers are integers). -/
inductive PyVal where
  | none
  | bool (b : Bool)
  | int (n : Int)
  | str (s : String)
  | list (xs : List PyVal)
  | dict (kvs : List (String × PyVal))

/-- Decimal digits of a positive natural number, most significant first.
Fuel-driven so that it reduces in the kernel; `fuel` only needs to bound the
number of recursion steps. -/
def natDigitsAux : Nat → Nat → List Char
  | 0, _ => []
  | fuel + 1, n => if n = 0 then [] else natDigitsAux fuel (n / 10) ++ [Char.ofNat (48 + n % 10)]

/-- Python `str(...)` of an `int`. -/
def intToDecString (n : Int) : String :=
  if n < 0 then String.mk ('-' :: natDigitsAux (n.natAbs + 1) n.natAbs)
  else if n = 0 then "0"
  else String.mk (natDigitsAux (n.natAbs + 1) n.natAbs)

mutual
/-- Python `repr(...)` restricted to the values of `PyVal`. -/
def pyRepr : PyVal → String
  | .none => "None"
  | .bool b => if b then "True" else "False"
  | .int n => intToDecString n
  | .str s => "'" ++ s ++ "'"
  | .list xs => "[" ++ pyReprItems xs ++ "]"
  | .dict kvs => "\x7b" ++ pyReprFields kvs ++ "\x7d"

def pyReprItems : List PyVal → String
  | [] => ""
  | [x] => pyRepr x
  | x :: y :: xs => pyRepr x ++ ", " ++ pyReprItems (y :: xs)

def pyReprFields : List (String × PyVal) → String
  | [] => ""
  | [(k, v)] => "'" ++ k ++ "': " ++ pyRepr v
  | (k, v) :: x :: xs => "'" ++ k ++ "': " ++ pyRepr v ++ ", " ++ pyReprFields (x :: xs)
end

/-- Python `str(...)`. -/
def pyStr : PyVal → String
  | .str s => s
  | v => pyRepr v

/-- Assigning a Python value to a nullable Django char/text column:
`None` stores NULL, anything else stores its string form. -/
def pyStrOpt : PyVal → Option String
  | .none => Option.none
  | v => some (pyStr v)

/-- Python truthiness. -/
def pyTruthy : PyVal → Bool
  | .none => false
  | .bool b => b
  | .int n => n != 0
  | .str s => s != ""
  | .list xs => !xs.isEmpty
  | .dict kvs => !kvs.isEmpty

/-- Python whitespace as stripped by `str.strip()`. -/
def isPySpace (c : Char) : Bool :=
  c = ' ' || c = '\t' || c = '\n' || c = '\r' || c.toNat = 11 || c.toNat = 12

/-- `str.strip()`. -/
def pyStrip (cs : List Char) : List Char :=
  ((cs.dropWhile isPySpace).reverse.dropWhile isPySpace).reverse

/-- Value of a digit list, most significant first. -/
def digitsToNat (cs : List Char) : Nat :=
  cs.foldl (fun a c => a * 10 + (c.toNat - 48)) 0

/-- Python `int(str)` (sign and surrounding whitespace allowed, digits required). -/
def pyIntOfString (s : String) : Option Int :=
  match pyStrip s.data with
  | '-' :: rest =>
      if rest ≠ [] ∧ rest.all Char.isDigit then some (-(digitsToNat rest : Int)) else Option.none
  | '+' :: rest =>
      if rest ≠ [] ∧ rest.all Char.isDigit then some (digitsToNat rest : Int) else Option.none
  | rest =>
      if rest ≠ [] ∧ rest.all Char.isDigit then some (digitsToNat rest : Int) else Option.none

/-- Python `int(x)`: `Option.none` models the `TypeError`/`ValueError` raised on
values with no integer conversion. -/
def pyIntOpt : PyVal → Option Int
  | .none => Option.none
  | .bool b => some (if b then 1 else 0)
  | .int n => some n
  | .str s => pyIntOfString s
  | .list _ => Option.none
  | .dict _ => Option.none

/-- Python `d.get(key, default)`. `Option.none` models the `AttributeError`
raised when the receiver is not a dict. Duplicate keys resolve to the last
occurrence, as in a Python dict built by repeated assignment. -/
def pyGet (v : PyVal) (key : String) (default : PyVal) : Option PyVal :=
  match v with
  | .dict kvs =>
      some (match kvs.reverse.find? (fun kv => kv.1 == key) with
            | some kv => kv.2
            | Option.none => default)
  | _ => Option.none

/-! ## Dates and `datetime.strptime(..., "%Y%m%d%H%M%S")` -/

/-- A calendar date, as produced by Python `datetime.date`. -/
@[ext] structure PyDate where
  year : Nat
  month : Nat
  day : Nat
deriving DecidableEq

/-- A wall-clock timestamp, as produced by Python `datetime.datetime`. -/
@[ext] structure PyDateTime where
  year : Nat
  month : Nat
  day : Nat
  hour : Nat
  minute : Nat
  second : Nat
deriving DecidableEq

/-- Python `datetime.date()`. -/
def PyDateTime.dateOf (d : PyDateTime) : PyDate :=
  ⟨d.year, d.month, d.day⟩

def isLeapYear (y : Nat) : Bool :=
  (y % 4 = 0 && y % 100 ≠ 0) || y % 400 = 0

def daysInMonth (y m : Nat) : Nat :=
  if m = 2 then (if isLeapYear y then 29 else 28)
  else if m = 4 ∨ m = 6 ∨ m = 9 ∨ m = 11 then 30
  else 31

/-- `datetime.datetime.strptime(s, "%Y%m%d%H%M%S")`: on a compact 14-digit
timestamp the format regex forces the 4-2-2-2-2-2 split, and the resulting
fields must form a valid calendar timestamp, else `ValueError`
(`Option.none`). -/
def strptime14 (s : String) : Option PyDateTime :=
  let cs := s.data
  if cs.length = 14 ∧ cs.all Char.isDigit then
    let y := digitsToNat (cs.take 4)
    let mo := digitsToNat ((cs.drop 4).take 2)
    let d := digitsToNat ((cs.drop 6).take 2)
    let h := digitsToNat ((cs.drop 8).take 2)
    let mi := digitsToNat ((cs.drop 10).take 2)
    let se := digitsToNat ((cs.drop 12).take 2)
    if 1 ≤ y ∧ 1 ≤ mo ∧ mo ≤ 12 ∧ 1 ≤ d ∧ d ≤ daysInMonth y mo ∧ h ≤ 23 ∧ mi ≤ 59 ∧ se ≤ 59 then
      some ⟨y, mo, d, h, mi, se⟩
    else Option.none
  else Option.none

/-! ## Data model (`lms/models.py` and the `MPesaTransaction` rows used by
`lms/views.py`) -/

/-- The slice of `Student` the payment core reads: identity and the class
level used to look up the fee structure. -/
@[ext] structure Student where
  id : Nat
  class_level : String
deriving DecidableEq

/-- `FeeStructure`: required amount per class level (`class_level` is unique). -/
@[ext] structure FeeStructure where
  class_level : String
  amount_required : Rat
deriving DecidableEq

/-- `Payment`: a settled ledger entry (`lms/models.py` plus the
`payment_method`/`mpesa_transaction` fields added by migration 0003). -/
@[ext] structure Payment where
  student : Nat
  amount_paid : Rat
  date : PyDate
  balance_after : Rat
  payment_method : String
  mpesa_transaction : Option Nat
deriving DecidableEq

/-- An `MPesaTransaction` row as mutated by `lms/views.py`. `callback_data`
holds the raw JSON payload stored for audit. -/
@[ext] structure MPesaTransaction where
  id : Nat
  student : Student
  amount : Rat
  phone_number : String
  status : String
  merchant_request_id : Option String
  checkout_request_id : Option String
  result_code : Option String
  result_description : Option String
  mpesa_receipt_number : Option String
  transaction_date : Option PyDateTime
  callback_data : Option PyVal

/-- The database state the payment views read and write. -/
structure DB where
  fees : List FeeStructure
  transactions : List MPesaTransaction
  payments : List Payment

/-- Django `save()` on a loaded row: persist by primary key. -/
def updTx (txs : List MPesaTransaction) (tx : MPesaTransaction) : List MPesaTransaction :=
  txs.map (fun t => if t.id = tx.id then tx else t)

/-! ## Phone normalization (`_normalize_msisdn`, views.py:935) -/

def listStartsWith : List Char → List Char → Bool
  | [], _ => true
  | _ :: _, [] => false
  | p :: ps, c :: cs => p == c && listStartsWith ps cs

/-- `_normalize_msisdn`: convert Kenyan numbers into `2547XXXXXXXX` form. -/
def _normalize_msisdn (phone_number : String) : String :=
  if phone_number = "" then ""
  else
    let s := (pyStrip phone_number.data).filter (fun c => c ≠ ' ')
    let m := match s with
             | '+' :: rest => rest
             | other => other
    let r :=
      if listStartsWith ['0'] m ∧ 10 ≤ m.length then '2' :: '5' :: '4' :: m.drop 1
      else if listStartsWith ['7'] m ∧ 9 ≤ m.length then '2' :: '5' :: '4' :: m
      else if listStartsWith ['2', '5', '4'] m ∧ 12 ≤ m.length then m
      else if listStartsWith ['2', '5', '4'] m then m
      else '2' :: '5' :: '4' :: m.dropWhile (fun c => c = '0')
    String.mk r

/-! ## Balance derivation (`calculate_balance_after_payment`, views.py:1355,
and the display balance of `student_fee_detail`, views.py:272) -/

/-- `FeeStructure.objects.get(class_level=...)` with the `DoesNotExist`
handler: amount of the matching fee structure, or 0 if none. -/
def requiredAmountFor (fees : List FeeStructure) (s : Student) : Rat :=
  match fees.find? (fun f => f.class_level == s.class_level) with
  | some f => f.amount_required
  | Option.none => 0

/-- `Payment.objects.filter(student=student).aggregate(Coalesce(Sum(...), 0))`. -/
def totalPaidFor (payments : List Payment) (s : Student) : Rat :=
  (payments.filter (fun p => p.student == s.id)).foldl (fun acc p => acc + p.amount_paid) 0

/-- The display balance computed by `student_fee_detail`:
`balance = total_required - total_paid`, reported as-is. -/
def student_fee_detail_balance (fees : List FeeStructure) (payments : List Payment)
    (s : Student) : Rat :=
  requiredAmountFor fees s - totalPaidFor payments s

/-- `calculate_balance_after_payment(student, amount_paid)`: the balance
stamped onto a new settlement record, clamped at zero. -/
def calculate_balance_after_payment (fees : List FeeStructure) (payments : List Payment)
    (s : Student) (amount_paid : Rat) : Rat :=
  let total_required := requiredAmountFor fees s
  let total_paid := totalPaidFor payments s + amount_paid
  max (total_required - total_paid) 0

/-! ## Webhook ingestion (`mpesa_callback`, views.py:1233) -/

/-- The fields `mpesa_callback` pulls out of the decoded body before looking
up the transaction. `meta` is the `CallbackMetadata.Item` list flattened into
a name-to-value dict. -/
structure Env where
  merchant : PyVal
  checkout : PyVal
  resultCode : PyVal
  resultDesc : PyVal
  meta : List (PyVal × PyVal)

/-- Equality of hashable Python dict keys (`True == 1` holds across
bool/int). -/
def pyKeyEq : PyVal → PyVal → Bool
  | .none, .none => true
  | .bool a, .bool b => a == b
  | .bool a, .int b => (if a then 1 else 0 : Int) == b
  | .int a, .bool b => a == (if b then 1 else 0 : Int)
  | .int a, .int b => a == b
  | .str a, .str b => a == b
  | _, _ => false

/-- Python dict assignment `meta[name] = value`: override an existing key in
place, else append. -/
def metaSet (m : List (PyVal × PyVal)) (k v : PyVal) : List (PyVal × PyVal) :=
  if m.any (fun kv => pyKeyEq kv.1 k) then
    m.map (fun kv => if pyKeyEq kv.1 k then (kv.1, v) else kv)
  else m ++ [(k, v)]

/-- `meta.get(name)` for a string name: a string key only ever equals another
string, so only `str` keys can match. -/
def metaGet (m : List (PyVal × PyVal)) (k : String) : PyVal :=
  match m.find? (fun kv => pyKeyEq kv.1 (.str k)) with
  | some kv => kv.2
  | Option.none => .none

/-- The `for it in items` loop building `meta`: each item must be a dict
(else `AttributeError`), a truthy `Name` must be hashable (else `TypeError`),
and its `Value` is stored. -/
def buildMeta : List PyVal → List (PyVal × PyVal) → Option (List (PyVal × PyVal))
  | [], acc => some acc
  | it :: rest, acc => do
      let name ← pyGet it "Name" .none
      if pyTruthy name then
        let value ← pyGet it "Value" .none
        match name with
        | .list _ => Option.none
        | .dict _ => Option.none
        | _ => buildMeta rest (metaSet acc name value)
      else buildMeta rest acc

/-- Lines 1254-1282 of `mpesa_callback`: unwrap `Body.stkCallback`, read the
correlation ids and result fields, and flatten the metadata items.
`Option.none` is an uncaught exception (the request ends in HTTP 500). -/
def extractEnvelope (body : PyVal) : Option Env := do
  let b ← pyGet body "Body" (.dict [])
  let stk ← pyGet b "stkCallback" (.dict [])
  let merchant ← pyGet stk "MerchantRequestID" .none
  let checkout ← pyGet stk "CheckoutRequestID" .none
  let rc ← pyGet stk "ResultCode" .none
  let rd ← pyGet stk "ResultDesc" .none
  let cm ← pyGet stk "CallbackMetadata" (.dict [])
  let itemsVal ← pyGet cm "Item" (.list [])
  let items ←
    (if pyTruthy itemsVal then
      match itemsVal with
      | .list xs => some xs
      | _ => Option.none
    else some [])
  let meta ← buildMeta items []
  pure ⟨merchant, checkout, rc, rd, meta⟩

/-- Lines 1284-1291: primary lookup by `checkout_request_id`, fallback lookup
by the `(merchant_request_id, checkout_request_id)` pair. A Django char-field
filter compares against the string form of the value. -/
def findTransaction (env : Env) (txs : List MPesaTransaction) : Option MPesaTransaction :=
  let primary :=
    if pyTruthy env.checkout then
      txs.find? (fun t => t.checkout_request_id == some (pyStr env.checkout))
    else Option.none
  match primary with
  | some t => some t
  | Option.none =>
      if pyTruthy env.merchant ∧ pyTruthy env.checkout then
        txs.find? (fun t =>
          t.merchant_request_id == some (pyStr env.merchant) &&
          t.checkout_request_id == some (pyStr env.checkout))
      else Option.none

/-- Lines 1299-1302: store the raw payload and last result code/description
on the matched transaction (always, before any dispatch). -/
def storeAudit (body : PyVal) (env : Env) (tx : MPesaTransaction) : MPesaTransaction :=
  { tx with
    callback_data := some body,
    result_code := pyStrOpt env.resultCode,
    result_description := pyStrOpt env.resultDesc }

/-- The `if tx_date_raw:` block: `strptime(str(int(tx_date_raw)), "%Y%m%d%H%M%S")`
with every failure swallowed. -/
def parseTxDate (v : PyVal) : Option PyDateTime :=
  if pyTruthy v then
    match pyIntOpt v with
    | some n => strptime14 (intToDecString n)
    | Option.none => Option.none
  else Option.none

/-- Lines 1315-1330: the `result_code_int == 0` branch — mark Completed and
record receipt, phone and parsed transaction date from the metadata. -/
def applySuccess (env : Env) (tx : MPesaTransaction) : MPesaTransaction :=
  let tx1 := { tx with status := "Completed" }
  let receipt := metaGet env.meta "MpesaReceiptNumber"
  let tx2 := if pyTruthy receipt then { tx1 with mpesa_receipt_number := some (pyStr receipt) } else tx1
  let phone := metaGet env.meta "PhoneNumber"
  let tx3 := if pyTruthy phone then { tx2 with phone_number := pyStr phone } else tx2
  match parseTxDate (metaGet env.meta "TransactionDate") with
  | some dt => { tx3 with transaction_date := some dt }
  | Option.none => tx3

/-- Lines 1334-1342: the `Payment.objects.create(...)` call for a freshly
completed transaction `t2`, reading the fee structure and payment tables of
the current database state. -/
def settlementFor (today : PyDate) (db : DB) (t2 : MPesaTransaction) : Payment :=
  { student := t2.student.id,
    amount_paid := t2.amount,
    date := match t2.transaction_date with
            | some dt => dt.dateOf
            | Option.none => today,
    balance_after := calculate_balance_after_payment db.fees db.payments t2.student t2.amount,
    payment_method := "M-Pesa",
    mpesa_transaction := some t2.id }

/-- Lines 1299-1350: everything `mpesa_callback` does to the database once a
transaction has been matched. -/
def processTransaction (today : PyDate) (body : PyVal) (env : Env) (tx0 : MPesaTransaction)
    (db : DB) : DB :=
  let tx1 := storeAudit body env tx0
  if tx1.status = "Completed" then
    { db with transactions := updTx db.transactions tx1 }
  else
    let rci := pyIntOpt env.resultCode
    if rci = some 0 then
      let tx2 := applySuccess env tx1
      let db1 := { db with transactions := updTx db.transactions tx2 }
      if db1.payments.any (fun p => p.mpesa_transaction == some tx2.id) then db1
      else { db1 with payments := db1.payments ++ [settlementFor today db1 tx2] }
    else
      let st := if rci = some 1032 then "Cancelled" else "Failed"
      { db with transactions := updTx db.transactions { tx1 with status := st } }

/-- The JSON acknowledgment a webhook request is answered with. -/
@[ext] structure Ack where
  ResultCode : Int
  ResultDesc : String
deriving DecidableEq

def successAck : Ack := ⟨0, "Accepted"⟩

/-- `mpesa_callback`: `parsed` is the result of
`json.loads(request.body.decode("utf-8") or "\x7b\x7d")` (`Option.none` when
decoding or parsing raised, which the view catches and acknowledges).
A result of `Option.none` is an uncaught exception: Django answers HTTP 500. -/
def mpesa_callback (today : PyDate) (parsed : Option PyVal) (db : DB) : Option (DB × Ack) :=
  match parsed with
  | Option.none => some (db, successAck)
  | some body =>
    match extractEnvelope body with
    | Option.none => Option.none
    | some env =>
      match findTransaction env db.transactions with
      | Option.none => some (db, successAck)
      | some tx => some (processTransaction today body env tx db, successAck)

/-! ## Push request construction (`initiate_stk_push`, views.py:996) -/

def base64Alphabet : List Char :=
  "ABCDEFGHIJKLMNOPQRSTUVWXYZabcdefghijklmnopqrstuvwxyz0123456789+/".data

def b64Char (n : Nat) : Char := base64Alphabet.getD n 'A'

/-- One base64 output group from up to three input bytes. -/
def b64Group : List Nat → String
  | [a, b, c] =>
      String.mk [b64Char (a / 4), b64Char ((a % 4) * 16 + b / 16),
                 b64Char ((b % 16) * 4 + c / 64), b64Char (c % 64)]
  | [a, b] =>
      String.mk [b64Char (a / 4), b64Char ((a % 4) * 16 + b / 16),
                 b64Char ((b % 16) * 4), '=']
  | [a] =>
      String.mk [b64Char (a / 4), b64Char ((a % 4) * 16), '=', '=']
  | _ => ""

def b64Encode : List Nat → String
  | a :: b :: c :: rest => b64Group [a, b, c] ++ b64Encode rest
  | rest => b64Group rest

/-- `base64.b64encode(s.encode("utf-8")).decode("utf-8")`. -/
def b64OfString (s : String) : String :=
  b64Encode (s.toUTF8.toList.map (fun b => b.toNat))

/-- `_mpesa_password(timestamp)`: base64 of `shortcode || passkey || timestamp`. -/
def _mpesa_password (shortcode passkey timestamp : String) : String :=
  b64OfString (shortcode ++ passkey ++ timestamp)

/-- `int(Decimal(amount))`: conversion of an exact decimal to int truncates
toward zero. -/
def decTrunc (q : Rat) : Int := q.num.tdiv q.den

/-- The flat field map POSTed to the STK push endpoint. -/
@[ext] structure StkPayload where
  BusinessShortCode : String
  Password : String
  Timestamp : String
  TransactionType : String
  Amount : Int
  PartyA : String
  PartyB : String
  PhoneNumber : String
  CallBackURL : String
  AccountReference : String
  TransactionDesc : String
deriving DecidableEq

/-- The gateway settings read from the environment. `callback_url` models
`getattr(settings, "MPESA_CALLBACK_URL", None)`. -/
structure MpesaConfig where
  shortcode : String
  passkey : String
  callback_url : Option String

/-- `settings.MPESA_CALLBACK_URL or callback_url` (empty strings are falsy). -/
def resolve_callback (cfg : MpesaConfig) (callback_url : String) : String :=
  match cfg.callback_url with
  | some s => if s = "" then callback_url else s
  | Option.none => callback_url

/-- `initiate_stk_push` up to the point where the payload has been built:
phone normalization, amount coercion/validation, callback resolution,
password derivation and token acquisition (the token call is a network
effect, passed in as its result), then the payload. Failures raise, modelled
as `Except.error` with the exception message. -/
def initiate_stk_push (cfg : MpesaConfig) (timestamp : String) (token : Except String String)
    (phone_number : String) (amount : Rat) (account_reference transaction_desc : String)
    (callback_url : String) : Except String StkPayload := do
  let msisdn := _normalize_msisdn phone_number
  if msisdn = "" then throw "Invalid phone number"
  let amount_int := decTrunc amount
  if amount_int < 1 then throw "Amount must be at least 1"
  let callback := resolve_callback cfg callback_url
  if callback = "" then throw "Missing callback URL"
  let password := _mpesa_password cfg.shortcode cfg.passkey timestamp
  let _tok ← token
  pure
    { BusinessShortCode := cfg.shortcode,
      Password := password,
      Timestamp := timestamp,
      TransactionType := "CustomerPayBillOnline",
      Amount := amount_int,
      PartyA := msisdn,
      PartyB := cfg.shortcode,
      PhoneNumber := msisdn,
      CallBackURL := callback,
      AccountReference := if account_reference ≠ "" then String.mk (account_reference.data.take 12)
                          else "Ujumbe360",
      TransactionDesc := if transaction_desc ≠ "" then String.mk (transaction_desc.data.take 50)
                         else "Payment" }

/-! ## Synchronous response handling (`initiate_stk_push` tail, views.py:1046,
and the `ResponseCode == "0"` branch of `initiate_mpesa_payment` /
`mpesa_stkpush`, views.py:1110 and 1203) -/

/-- Lines 1046-1049: store the immediate gateway response on the transaction
(`or` keeps the prior value when the response field is falsy). -/
def record_stk_response (tx : MPesaTransaction) (reqPayload resp : PyVal) :
    Option MPesaTransaction := do
  let rc ← pyGet resp "ResponseCode" .none
  let rd ← pyGet resp "ResponseDescription" .none
  pure { tx with
    result_code := if pyTruthy rc then some (pyStr rc) else tx.result_code,
    result_description := if pyTruthy rd then some (pyStr rd) else tx.result_description,
    callback_data := some (.dict [("stkpush_request", reqPayload), ("stkpush_response", resp)]) }

/-- Lines 1110-1127 / 1203-1224: the caller's dispatch on the synchronous
response. `ResponseCode == "0"` stores the correlation ids; any other
response marks the transaction Failed. -/
def handle_stk_response (tx : MPesaTransaction) (resp : PyVal) : Option MPesaTransaction := do
  let rc ← pyGet resp "ResponseCode" .none
  if (match rc with | .str s => s == "0" | _ => false : Bool) then
    let m ← pyGet resp "MerchantRequestID" .none
    let c ← pyGet resp "CheckoutRequestID" .none
    pure { tx with merchant_request_id := pyStrOpt m, checkout_request_id := pyStrOpt c }
  else
    let rd ← pyGet resp "ResponseDescription" (.str "")
    pure { tx with
      status := "Failed",
      result_code := pyStrOpt rc,
      result_description := some (pyStr rd) }

/-- The complete per-transaction effect of a push submission whose HTTP round
trip answered `resp`: the response is recorded, then dispatched on. -/
def stk_submit (tx : MPesaTransaction) (reqPayload resp : PyVal) : Option MPesaTransaction :=
  (record_stk_response tx reqPayload resp).bind (fun tx1 => handle_stk_response tx1 resp)

/-! ## Concrete callback fixtures -/

/-- A transaction already marked Failed, with correlation ids stored. -/
def c1cexTx : MPesaTransaction :=
  { id := 1, student := ⟨1, "Form 1"⟩, amount := 500, phone_number := "254712345678",
    status := "Failed", merchant_request_id := some "M1", checkout_request_id := some "C1",
    result_code := some "1", result_description := some "insufficient funds",
    mpesa_receipt_number := Option.none, transaction_date := Option.none,
    callback_data := Option.none }

/-- A successful Daraja callback for checkout id C1. -/
def c1cexBody : PyVal :=
  .dict [("Body", .dict [("stkCallback", .dict
    [("MerchantRequestID", .str "M1"), ("CheckoutRequestID", .str "C1"),
     ("ResultCode", .int 0), ("ResultDesc", .str "The service request is processed successfully."),
     ("CallbackMetadata", .dict [("Item", .list
       [.dict [("Name", .str "Amount"), ("Value", .int 500)],
        .dict [("Name", .str "MpesaReceiptNumber"), ("Value", .str "NLJ7RT61SV")],
        .dict [("Name", .str "PhoneNumber"), ("Value", .int 254712345678)],
        .dict [("Name", .str "TransactionDate"), ("Value", .int 20231209203045)]])])])])]

def c1cexDb : DB := { fees := [⟨"Form 1", 1000⟩], transactions := [c1cexTx], payments := [] }

/-- A transaction already Completed. -/
def c1wTx : MPesaTransaction :=
  { id := 7, student := ⟨3, "Form 2"⟩, amount := 300, phone_number := "254700000001",
    status := "Completed", merchant_request_id := some "M7", checkout_request_id := some "C7",
    result_code := some "0", result_description := some "ok",
    mpesa_receipt_number := some "RCPT7", transaction_date := Option.none,
    callback_data := Option.none }

/-- A re-delivered callback for checkout id C7 (no metadata). -/
def c1wBody : PyVal :=
  .dict [("Body", .dict [("stkCallback", .dict
    [("MerchantRequestID", .str "M7"), ("CheckoutRequestID", .str "C7"),
     ("ResultCode", .int 0), ("ResultDesc", .str "ok")])])]

def c1wEnv : Env := ⟨.str "M7", .str "C7", .int 0, .str "ok", []⟩

def c1wDb : DB :=
  { fees := [⟨"Form 2", 1000⟩], transactions := [c1wTx],
    payments := [{ student := 3, amount_paid := 300, date := ⟨2023, 12, 9⟩, balance_after := 700,
                   payment_method := "M-Pesa", mpesa_transaction := some 7 }] }

/-! ## Helper lemmas -/

theorem storeAudit_status (body : PyVal) (env : Env) (tx : MPesaTransaction) :
    (storeAudit body env tx).status = tx.status := rfl

theorem applySuccess_id (env : Env) (tx : MPesaTransaction) :
    (applySuccess env tx).id = tx.id := by
  simp only [applySuccess]
  repeat' split
  all_goals rfl

theorem applySuccess_status (env : Env) (tx : MPesaTransaction) :
    (applySuccess env tx).status = "Completed" := by
  simp only [applySuccess]
  repeat' split
  all_goals rfl

theorem applySuccess_checkout (env : Env) (tx : MPesaTransaction) :
    (applySuccess env tx).checkout_request_id = tx.checkout_request_id := by
  simp only [applySuccess]
  repeat' split
  all_goals rfl

theorem applySuccess_merchant (env : Env) (tx : MPesaTransaction) :
    (applySuccess env tx).merchant_request_id = tx.merchant_request_id := by
  simp only [applySuccess]
  repeat' split
  all_goals rfl

theorem applySuccess_amount (env : Env) (tx : MPesaTransaction) :
    (applySuccess env tx).amount = tx.amount := by
  simp only [applySuccess]
  repeat' split
  all_goals rfl

theorem applySuccess_student (env : Env) (tx : MPesaTransaction) :
    (applySuccess env tx).student = tx.student := by
  simp only [applySuccess]
  repeat' split
  all_goals rfl

theorem applySuccess_callback_data (env : Env) (tx : MPesaTransaction) :
    (applySuccess env tx).callback_data = tx.callback_data := by
  simp only [applySuccess]
  repeat' split
  all_goals rfl

theorem applySuccess_result_code (env : Env) (tx : MPesaTransaction) :
    (applySuccess env tx).result_code = tx.result_code := by
  simp only [applySuccess]
  repeat' split
  all_goals rfl

theorem applySuccess_result_description (env : Env) (tx : MPesaTransaction) :
    (applySuccess env tx).result_description = tx.result_description := by
  simp only [applySuccess]
  repeat' split
  all_goals rfl

/-- Re-running the audit store on a transaction that already carries exactly
this callback's audit fields changes nothing. -/
theorem storeAudit_applySuccess_storeAudit (body : PyVal) (env : Env) (tx : MPesaTransaction) :
    storeAudit body env (applySuccess env (storeAudit body env tx))
      = applySuccess env (storeAudit body env tx) := by
  have h1 := applySuccess_callback_data env (storeAudit body env tx)
  have h2 := applySuccess_result_code env (storeAudit body env tx)
  have h3 := applySuccess_result_description env (storeAudit body env tx)
  unfold storeAudit at *
  ext <;> simp_all

/-- `find?` commutes with an update map that fixes every element other than
(copies of) the found one. -/
theorem find?_map_update {α : Type} (p : α → Bool) (f : α → α) (l : List α) (a : α)
    (h : l.find? p = some a) (hfa : p (f a) = true)
    (hf : ∀ x, f x = x ∨ f x = f a) :
    (l.map f).find? p = some (f a) := by
  induction l with
  | nil => simp at h
  | cons x xs ih =>
    rw [List.map_cons]
    by_cases hx : p x
    · rw [List.find?_cons_of_pos _ hx] at h
      obtain rfl : x = a := by injection h
      cases hf x with
      | inl hfx => rw [List.find?_cons_of_pos _ (by rw [hfx]; exact hx)]
      | inr hfx => rw [hfx, List.find?_cons_of_pos _ hfa]
    · rw [List.find?_cons_of_neg _ (by simpa using hx)] at h
      cases hf x with
      | inl hfx =>
        rw [hfx, List.find?_cons_of_neg _ (by simpa using hx)]
        exact ih h
      | inr hfx => rw [hfx, List.find?_cons_of_pos _ hfa]

/-- A matched callback necessarily carried a truthy `CheckoutRequestID`. -/
theorem findTransaction_checkout_truthy {env : Env} {txs : List MPesaTransaction}
    {tx : MPesaTransaction} (h : findTransaction env txs = some tx) :
    pyTruthy env.checkout = true := by
  by_cases hc : pyTruthy env.checkout
  · exact hc
  · simp [findTransaction, hc] at h

/-- With a truthy checkout id the fallback pair lookup can never fire, so
`findTransaction` is the primary `checkout_request_id` lookup. -/
theorem findTransaction_eq_primary (env : Env) (txs : List MPesaTransaction)
    (hc : pyTruthy env.checkout = true) :
    findTransaction env txs
      = txs.find? (fun t => t.checkout_request_id == some (pyStr env.checkout)) := by
  unfold findTransaction
  rw [if_pos hc]
  cases hp : txs.find? (fun t => t.checkout_request_id == some (pyStr env.checkout)) with
  | some t => rfl
  | none =>
    simp only []
    by_cases hm : pyTruthy env.merchant
    · rw [if_pos ⟨hm, hc⟩, List.find?_eq_none]
      intro t ht hcontra
      rw [List.find?_eq_none] at hp
      exact hp t ht (by
        have := Bool.and_elim_right hcontra
        simpa using this)
    · rw [if_neg (by simp [hm])]

/-- Unfolding `mpesa_callback` once the envelope and the transaction are known. -/
theorem mpesa_callback_eq_process (today : PyDate) (body : PyVal) (env : Env) (db : DB)
    (tx : MPesaTransaction)
    (hext : extractEnvelope body = some env)
    (hfind : findTransaction env db.transactions = some tx) :
    mpesa_callback today (some body) db
      = some (processTransaction today body env tx db, successAck) := by
  simp only [mpesa_callback, hext, hfind]

/-- The success branch of `processTransaction`, for a not-yet-Completed
transaction and `ResultCode` converting to 0. -/
theorem processTransaction_success (today : PyDate) (body : PyVal) (env : Env)
    (tx : MPesaTransaction) (db : DB)
    (hnc : tx.status ≠ "Completed") (hrc : pyIntOpt env.resultCode = some 0) :
    processTransaction today body env tx db
      = (if db.payments.any
            (fun p => p.mpesa_transaction == some (applySuccess env (storeAudit body env tx)).id)
         then { db with
                transactions := updTx db.transactions (applySuccess env (storeAudit body env tx)) }
         else { fees := db.fees,
                transactions := updTx db.transactions (applySuccess env (storeAudit body env tx)),
                payments := db.payments ++
                  [settlementFor today
                    { db with
                      transactions := updTx db.transactions (applySuccess env (storeAudit body env tx)) }
                    (applySuccess env (storeAudit body env tx))] }) := by
  simp only [processTransaction, storeAudit_status, hrc, hnc, if_neg, if_pos]
  simp

/-- The failure/cancellation branch of `processTransaction`, for a
not-yet-Completed transaction and a result code not converting to 0. -/
theorem processTransaction_other (today : PyDate) (body : PyVal) (env : Env)
    (tx : MPesaTransaction) (db : DB)
    (hnc : tx.status ≠ "Completed") (hrc : pyIntOpt env.resultCode ≠ some 0) :
    processTransaction today body env tx db
      = { db with
          transactions :=
            updTx db.transactions
              ({ storeAudit body env tx with
                 status := if pyIntOpt env.resultCode = some 1032 then "Cancelled" else "Failed" }) } := by
  simp only [processTransaction, storeAudit_status, hrc, hnc, if_neg]
  simp [hrc]

/-- An element of `updTx txs u` carrying `u`'s primary key is `u` itself. -/
theorem updTx_mem_id {txs : List MPesaTransaction} {u t : MPesaTransaction}
    (h : t ∈ updTx txs u) (hid : t.id = u.id) : t = u := by
  unfold updTx at h
  obtain ⟨s, hs, rfl⟩ := List.mem_map.mp h
  by_cases h2 : s.id = u.id
  · simp [h2]
  · rw [if_neg h2] at hid ⊢
    exact absurd hid h2

/-- Re-saving the same updated row changes nothing. -/
theorem updTx_idem (txs : List MPesaTransaction) (u : MPesaTransaction) :
    updTx (updTx txs u) u = updTx txs u := by
  induction txs with
  | nil => rfl
  | cons x xs ih =>
      simp only [updTx, List.map_cons] at ih ⊢
      by_cases h : x.id = u.id
      · simpa [h] using ih
      · simpa [h] using ih

theorem applySuccess_phone (env : Env) (tx : MPesaTransaction) :
    (applySuccess env tx).phone_number
      = (if pyTruthy (metaGet env.meta "PhoneNumber")
         then pyStr (metaGet env.meta "PhoneNumber")
         else tx.phone_number) := by
  simp only [applySuccess]
  repeat' split
  all_goals simp_all

theorem applySuccess_receipt (env : Env) (tx : MPesaTransaction) :
    (applySuccess env tx).mpesa_receipt_number
      = (if pyTruthy (metaGet env.meta "MpesaReceiptNumber")
         then some (pyStr (metaGet env.meta "MpesaReceiptNumber"))
         else tx.mpesa_receipt_number) := by
  simp only [applySuccess]
  repeat' split
  all_goals simp_all

theorem applySuccess_transaction_date (env : Env) (tx : MPesaTransaction) :
    (applySuccess env tx).transaction_date
      = (match parseTxDate (metaGet env.meta "TransactionDate") with
         | some dt => some dt
         | Option.none => tx.transaction_date) := by
  simp only [applySuccess]
  repeat' split
  all_goals simp_all

/-! ## Claim C1 -/

/-- Claim C1, counterexample. The claim asserts that a transaction in any
terminal status (Completed, Failed or Cancelled) receives no further status
transition and no settlement from ingestion. The guard in `mpesa_callback`
only checks `status == "Completed"`: delivering a ResultCode-0 callback to a
transaction already marked Failed re-transitions it to Completed and creates
a settlement record. -/
theorem mpesa_callback_terminal_guard_cex :
    c1cexDb.transactions.map MPesaTransaction.status = ["Failed"]
    ∧ c1cexDb.payments.length = 0
    ∧ (mpesa_callback ⟨2024, 1, 1⟩ (some c1cexBody) c1cexDb).map
        (fun r => (r.1.transactions.map MPesaTransaction.status, r.1.payments.length))
      = some (["Completed"], 1) := by
  refine ⟨rfl, rfl, ?_⟩
  decide

/-- Claim C1, amended. Only `Completed` is guarded: for a delivery matched to
a transaction whose status is `Completed`, ingestion applies no status
transition and creates no settlement; the stored raw callback payload and the
last result code/description are updated (via `storeAudit`) and every other
transaction field is unchanged. -/
theorem mpesa_callback_completed_guard
    (today : PyDate) (body : PyVal) (env : Env) (db : DB) (tx : MPesaTransaction)
    (hext : extractEnvelope body = some env)
    (hfind : findTransaction env db.transactions = some tx)
    (hC : tx.status = "Completed") :
    mpesa_callback today (some body) db
      = some ({ db with transactions := updTx db.transactions (storeAudit body env tx) }, successAck)
    ∧ ({ db with transactions := updTx db.transactions (storeAudit body env tx) } : DB).payments
        = db.payments
    ∧ (storeAudit body env tx).status = tx.status
    ∧ (storeAudit body env tx).phone_number = tx.phone_number
    ∧ (storeAudit body env tx).mpesa_receipt_number = tx.mpesa_receipt_number
    ∧ (storeAudit body env tx).transaction_date = tx.transaction_date
    ∧ (storeAudit body env tx).merchant_request_id = tx.merchant_request_id
    ∧ (storeAudit body env tx).checkout_request_id = tx.checkout_request_id := by
  refine ⟨?_, rfl, rfl, rfl, rfl, rfl, rfl, rfl⟩
  simp only [mpesa_callback, hext, hfind]
  simp only [processTransaction, storeAudit_status, hC]
  simp

/-- Claim C1, witness for the amended theorem: a concrete Completed
transaction receiving a re-delivered callback. -/
theorem mpesa_callback_completed_guard_witness :
    extractEnvelope c1wBody = some c1wEnv
    ∧ findTransaction c1wEnv c1wDb.transactions = some c1wTx
    ∧ c1wTx.status = "Completed"
    ∧ mpesa_callback ⟨2024, 1, 1⟩ (some c1wBody) c1wDb
        = some ({ c1wDb with
                  transactions := updTx c1wDb.transactions (storeAudit c1wBody c1wEnv c1wTx) },
                successAck) :=
  ⟨rfl, rfl, rfl, (mpesa_callback_completed_guard ⟨2024, 1, 1⟩ c1wBody c1wEnv c1wDb c1wTx
      rfl rfl rfl).1⟩

/-! ## Claim C9 -/

def c9Tx : MPesaTransaction :=
  { id := 9, student := ⟨9, "Form 3"⟩, amount := 200, phone_number := "254700000009",
    status := "Pending", merchant_request_id := some "M9", checkout_request_id := some "C9",
    result_code := Option.none, result_description := Option.none,
    mpesa_receipt_number := Option.none, transaction_date := Option.none,
    callback_data := Option.none }

def c9Db : DB := { fees := [], transactions := [c9Tx], payments := [] }

/-- A user-cancelled callback (`ResultCode = 1032`). -/
def c9BodyA : PyVal :=
  .dict [("Body", .dict [("stkCallback", .dict
    [("MerchantRequestID", .str "M9"), ("CheckoutRequestID", .str "C9"),
     ("ResultCode", .int 1032), ("ResultDesc", .str "Request cancelled by user")])])]

def c9EnvA : Env := ⟨.str "M9", .str "C9", .int 1032, .str "Request cancelled by user", []⟩

/-- A failed callback with some other non-zero code. -/
def c9BodyB : PyVal :=
  .dict [("Body", .dict [("stkCallback", .dict
    [("MerchantRequestID", .str "M9"), ("CheckoutRequestID", .str "C9"),
     ("ResultCode", .int 1), ("ResultDesc", .str "The balance is insufficient")])])]

def c9EnvB : Env := ⟨.str "M9", .str "C9", .int 1, .str "The balance is insufficient", []⟩

/-- Claim C9: for a matched, non-terminal transaction, a callback whose
result code converts to the cancellation sentinel 1032 marks it Cancelled,
and any other non-zero integer result code marks it Failed; in both cases the
payments table is untouched (no settlement is created). -/
theorem mpesa_callback_cancellation_mapping
    (today : PyDate) (body : PyVal) (env : Env) (db : DB) (tx : MPesaTransaction)
    (hext : extractEnvelope body = some env)
    (hfind : findTransaction env db.transactions = some tx)
    (hnt : tx.status ≠ "Completed" ∧ tx.status ≠ "Failed" ∧ tx.status ≠ "Cancelled") :
    (pyIntOpt env.resultCode = some 1032 →
       mpesa_callback today (some body) db
         = some ({ db with
                   transactions :=
                     updTx db.transactions
                       ({ storeAudit body env tx with status := "Cancelled" }) }, successAck)
       ∧ ({ db with
            transactions :=
              updTx db.transactions
                ({ storeAudit body env tx with status := "Cancelled" }) } : DB).payments
           = db.payments)
    ∧ (∀ n : Int, pyIntOpt env.resultCode = some n → n ≠ 0 → n ≠ 1032 →
       mpesa_callback today (some body) db
         = some ({ db with
                   transactions :=
                     updTx db.transactions
                       ({ storeAudit body env tx with status := "Failed" }) }, successAck)
       ∧ ({ db with
            transactions :=
              updTx db.transactions
                ({ storeAudit body env tx with status := "Failed" }) } : DB).payments
           = db.payments) := by
  constructor
  · intro h1032
    refine ⟨?_, rfl⟩
    rw [mpesa_callback_eq_process today body env db tx hext hfind,
        processTransaction_other today body env tx db hnt.1 (by rw [h1032]; decide)]
    rw [h1032]
    simp
  · intro n hn hn0 hn1032
    refine ⟨?_, rfl⟩
    rw [mpesa_callback_eq_process today body env db tx hext hfind,
        processTransaction_other today body env tx db hnt.1 (by rw [hn]; simp [hn0])]
    rw [hn]
    simp [hn1032]

/-- Claim C9, witness: the 1032 callback cancels the concrete Pending
transaction, and the code-1 callback fails it; neither creates a payment. -/
theorem mpesa_callback_cancellation_mapping_witness :
    extractEnvelope c9BodyA = some c9EnvA
    ∧ findTransaction c9EnvA c9Db.transactions = some c9Tx
    ∧ (c9Tx.status ≠ "Completed" ∧ c9Tx.status ≠ "Failed" ∧ c9Tx.status ≠ "Cancelled")
    ∧ pyIntOpt c9EnvA.resultCode = some 1032
    ∧ (mpesa_callback ⟨2024, 1, 1⟩ (some c9BodyA) c9Db
         = some ({ c9Db with
                   transactions :=
                     updTx c9Db.transactions
                       ({ storeAudit c9BodyA c9EnvA c9Tx with status := "Cancelled" }) }, successAck)
       ∧ ({ c9Db with
            transactions :=
              updTx c9Db.transactions
                ({ storeAudit c9BodyA c9EnvA c9Tx with status := "Cancelled" }) } : DB).payments
           = c9Db.payments)
    ∧ extractEnvelope c9BodyB = some c9EnvB
    ∧ findTransaction c9EnvB c9Db.transactions = some c9Tx
    ∧ pyIntOpt c9EnvB.resultCode = some 1
    ∧ (mpesa_callback ⟨2024, 1, 1⟩ (some c9BodyB) c9Db
         = some ({ c9Db with
                   transactions :=
                     updTx c9Db.transactions
                       ({ storeAudit c9BodyB c9EnvB c9Tx with status := "Failed" }) }, successAck)
       ∧ ({ c9Db with
            transactions :=
              updTx c9Db.transactions
                ({ storeAudit c9BodyB c9EnvB c9Tx with status := "Failed" }) } : DB).payments
           = c9Db.payments) :=
  ⟨rfl, rfl, ⟨by decide, by decide, by decide⟩, rfl,
   (mpesa_callback_cancellation_mapping ⟨2024, 1, 1⟩ c9BodyA c9EnvA c9Db c9Tx rfl rfl
      ⟨by decide, by decide, by decide⟩).1 rfl,
   rfl, rfl, rfl,
   (mpesa_callback_cancellation_mapping ⟨2024, 1, 1⟩ c9BodyB c9EnvB c9Db c9Tx rfl rfl
      ⟨by decide, by decide, by decide⟩).2 1 rfl (by decide) (by decide)⟩

/-! ## Claim C10 -/

def c10Tx : MPesaTransaction :=
  { id := 10, student := ⟨10, "Form 4"⟩, amount := 100, phone_number := "254712345678",
    status := "Pending", merchant_request_id := some "M10", checkout_request_id := some "C10",
    result_code := Option.none, result_description := Option.none,
    mpesa_receipt_number := Option.none, transaction_date := Option.none,
    callback_data := Option.none }

def c10Db : DB := { fees := [], transactions := [c10Tx], payments := [] }

/-- A successful callback whose settled phone differs from the transaction's
normalized phone. -/
def c10Body : PyVal :=
  .dict [("Body", .dict [("stkCallback", .dict
    [("MerchantRequestID", .str "M10"), ("CheckoutRequestID", .str "C10"),
     ("ResultCode", .int 0), ("ResultDesc", .str "ok"),
     ("CallbackMetadata", .dict [("Item", .list
       [.dict [("Name", .str "MpesaReceiptNumber"), ("Value", .str "R10")],
        .dict [("Name", .str "PhoneNumber"), ("Value", .int 254799999999)]])])])])]

def c10Env : Env :=
  ⟨.str "M10", .str "C10", .int 0, .str "ok",
   [(.str "MpesaReceiptNumber", .str "R10"), (.str "PhoneNumber", .int 254799999999)]⟩

/-- Claim C10, counterexample. The claim asserts the transaction's normalized
phone is unchanged by ingestion, the settled phone going to a separate field.
The code overwrites `phone_number` itself with the callback metadata phone:
the transaction created with `254712345678` ends up with `254799999999`. -/
theorem mpesa_callback_phone_preserved_cex :
    c10Db.transactions.map MPesaTransaction.phone_number = ["254712345678"]
    ∧ (mpesa_callback ⟨2024, 1, 1⟩ (some c10Body) c10Db).map
        (fun r => r.1.transactions.map MPesaTransaction.phone_number)
      = some ["254799999999"] := by
  refine ⟨rfl, ?_⟩
  decide

/-- Claim C10, amended. On a successful settlement the callback's truthy
`PhoneNumber` metadata value is written into the transaction's single
`phone_number` field, overwriting the normalized phone set at creation (when
the metadata phone is absent or falsy the normalized phone is kept); the
receipt is stored in `mpesa_receipt_number` and the status becomes
`Completed`. There is no separate settled-phone field. -/
theorem mpesa_callback_phone_overwrite
    (today : PyDate) (body : PyVal) (env : Env) (db : DB) (tx : MPesaTransaction)
    (hext : extractEnvelope body = some env)
    (hfind : findTransaction env db.transactions = some tx)
    (hnc : tx.status ≠ "Completed")
    (hrc : pyIntOpt env.resultCode = some 0) :
    ∃ db1, mpesa_callback today (some body) db = some (db1, successAck)
      ∧ ∀ t ∈ db1.transactions, t.id = tx.id →
          t.phone_number = (if pyTruthy (metaGet env.meta "PhoneNumber")
                            then pyStr (metaGet env.meta "PhoneNumber")
                            else tx.phone_number)
          ∧ t.status = "Completed"
          ∧ t.mpesa_receipt_number = (if pyTruthy (metaGet env.meta "MpesaReceiptNumber")
                                      then some (pyStr (metaGet env.meta "MpesaReceiptNumber"))
                                      else tx.mpesa_receipt_number) := by
  rw [mpesa_callback_eq_process today body env db tx hext hfind,
      processTransaction_success today body env tx db hnc hrc]
  have hid2 : (applySuccess env (storeAudit body env tx)).id = tx.id := by
    rw [applySuccess_id]
    rfl
  have hprops : ∀ t ∈ updTx db.transactions (applySuccess env (storeAudit body env tx)),
      t.id = tx.id →
        t.phone_number = (if pyTruthy (metaGet env.meta "PhoneNumber")
                          then pyStr (metaGet env.meta "PhoneNumber")
                          else tx.phone_number)
        ∧ t.status = "Completed"
        ∧ t.mpesa_receipt_number = (if pyTruthy (metaGet env.meta "MpesaReceiptNumber")
                                    then some (pyStr (metaGet env.meta "MpesaReceiptNumber"))
                                    else tx.mpesa_receipt_number) := by
    intro t ht hid
    have := updTx_mem_id ht (hid.trans hid2.symm)
    subst this
    refine ⟨?_, applySuccess_status env (storeAudit body env tx), ?_⟩
    · rw [applySuccess_phone]
      rfl
    · rw [applySuccess_receipt]
      rfl
  by_cases hg : db.payments.any
      (fun p => p.mpesa_transaction == some (applySuccess env (storeAudit body env tx)).id)
  · rw [if_pos hg]
    exact ⟨_, rfl, hprops⟩
  · rw [if_neg hg]
    exact ⟨_, rfl, hprops⟩

/-- Claim C10, witness: the concrete callback with settled phone
`254799999999` applied to the transaction created with `254712345678`. -/
theorem mpesa_callback_phone_overwrite_witness :
    extractEnvelope c10Body = some c10Env
    ∧ findTransaction c10Env c10Db.transactions = some c10Tx
    ∧ c10Tx.status ≠ "Completed"
    ∧ pyIntOpt c10Env.resultCode = some 0
    ∧ c10Tx.phone_number = "254712345678"
    ∧ pyTruthy (metaGet c10Env.meta "PhoneNumber") = true
    ∧ pyStr (metaGet c10Env.meta "PhoneNumber") = "254799999999"
    ∧ ∃ db1, mpesa_callback ⟨2024, 1, 1⟩ (some c10Body) c10Db = some (db1, successAck)
        ∧ ∀ t ∈ db1.transactions, t.id = c10Tx.id →
            t.phone_number = (if pyTruthy (metaGet c10Env.meta "PhoneNumber")
                              then pyStr (metaGet c10Env.meta "PhoneNumber")
                              else c10Tx.phone_number)
            ∧ t.status = "Completed"
            ∧ t.mpesa_receipt_number = (if pyTruthy (metaGet c10Env.meta "MpesaReceiptNumber")
                                        then some (pyStr (metaGet c10Env.meta "MpesaReceiptNumber"))
                                        else c10Tx.mpesa_receipt_number) :=
  ⟨rfl, rfl, by decide, rfl, rfl, rfl, rfl,
   mpesa_callback_phone_overwrite ⟨2024, 1, 1⟩ c10Body c10Env c10Db c10Tx rfl rfl
     (by decide) rfl⟩

/-! ## Claim C5 -/

theorem storeAudit_id (body : PyVal) (env : Env) (tx : MPesaTransaction) :
    (storeAudit body env tx).id = tx.id := rfl

def c5Tx : MPesaTransaction :=
  { id := 5, student := ⟨5, "Form 1"⟩, amount := 500, phone_number := "254712345678",
    status := "Pending", merchant_request_id := some "M5", checkout_request_id := some "C5",
    result_code := Option.none, result_description := Option.none,
    mpesa_receipt_number := Option.none, transaction_date := Option.none,
    callback_data := Option.none }

/-- A successful callback confirming an amount (400) different from the
transaction's requested amount (500). -/
def c5Body : PyVal :=
  .dict [("Body", .dict [("stkCallback", .dict
    [("MerchantRequestID", .str "M5"), ("CheckoutRequestID", .str "C5"),
     ("ResultCode", .int 0), ("ResultDesc", .str "ok"),
     ("CallbackMetadata", .dict [("Item", .list
       [.dict [("Name", .str "Amount"), ("Value", .int 400)],
        .dict [("Name", .str "MpesaReceiptNumber"), ("Value", .str "R5")],
        .dict [("Name", .str "TransactionDate"), ("Value", .int 20231209203045)]])])])])]

def c5Env : Env :=
  ⟨.str "M5", .str "C5", .int 0, .str "ok",
   [(.str "Amount", .int 400), (.str "MpesaReceiptNumber", .str "R5"),
    (.str "TransactionDate", .int 20231209203045)]⟩

def c5Db : DB := { fees := [⟨"Form 1", 1000⟩], transactions := [c5Tx], payments := [] }

/-- Claim C5, counterexample. The claim says the settlement credits the
confirmed amount from the callback metadata. The code creates the payment
with `amount_paid=mpesa_transaction.amount`: with metadata `Amount = 400`
and a transaction requested at 500, the settlement credits 500. -/
theorem mpesa_callback_settlement_amount_cex :
    (extractEnvelope c5Body).map (fun e => metaGet e.meta "Amount") = some (PyVal.int 400)
    ∧ c5Tx.amount = 500
    ∧ (mpesa_callback ⟨2024, 1, 1⟩ (some c5Body) c5Db).map
        (fun r => r.1.payments.map Payment.amount_paid) = some [(500 : Rat)]
    ∧ (400 : Rat) ≠ (500 : Rat) := by
  refine ⟨rfl, rfl, by decide, by decide⟩

/-- Claim C5, amended. On the first successful settlement transition the
created settlement record credits the transaction's requested amount (the
callback's metadata `Amount` is ignored), is keyed to the transaction, is
dated with the calendar date parsed from the 14-digit `TransactionDate`
metadata (falling back to the current date when that field is absent or
unparsable, the transaction having had no stored date), and carries the newly
computed clamped balance. -/
theorem mpesa_callback_settlement_fields
    (today : PyDate) (body : PyVal) (env : Env) (db : DB) (tx : MPesaTransaction)
    (hext : extractEnvelope body = some env)
    (hfind : findTransaction env db.transactions = some tx)
    (hnc : tx.status ≠ "Completed")
    (hrc : pyIntOpt env.resultCode = some 0)
    (hnp : db.payments.any (fun p => p.mpesa_transaction == some tx.id) = false)
    (hdate : tx.transaction_date = Option.none) :
    ∃ db1 pay, mpesa_callback today (some body) db = some (db1, successAck)
      ∧ db1.payments = db.payments ++ [pay]
      ∧ pay.amount_paid = tx.amount
      ∧ pay.student = tx.student.id
      ∧ pay.mpesa_transaction = some tx.id
      ∧ pay.payment_method = "M-Pesa"
      ∧ pay.date = (match parseTxDate (metaGet env.meta "TransactionDate") with
                    | some dt => dt.dateOf
                    | Option.none => today)
      ∧ pay.balance_after
          = calculate_balance_after_payment db.fees db.payments tx.student tx.amount := by
  rw [mpesa_callback_eq_process today body env db tx hext hfind,
      processTransaction_success today body env tx db hnc hrc]
  have hguard : db.payments.any
      (fun p => p.mpesa_transaction == some (applySuccess env (storeAudit body env tx)).id)
      = false := by
    simp only [applySuccess_id, storeAudit_id]
    exact hnp
  rw [if_neg (by simp [hguard])]
  refine ⟨_, _, rfl, rfl, ?_, ?_, ?_, rfl, ?_, ?_⟩
  · simp only [settlementFor, applySuccess_amount]
    rfl
  · simp only [settlementFor, applySuccess_student]
    rfl
  · simp only [settlementFor, applySuccess_id, storeAudit_id]
  · cases hp : parseTxDate (metaGet env.meta "TransactionDate") with
    | some dt => simp [settlementFor, applySuccess_transaction_date, hp]
    | none =>
        simp only [settlementFor, applySuccess_transaction_date, hp]
        simp [storeAudit, hdate]
  · simp only [settlementFor, applySuccess_student, applySuccess_amount]
    rfl

/-- Claim C5, witness: the concrete first settlement of `c5Tx` under
`c5Body`, whose transaction date parses to 2023-12-09. -/
theorem mpesa_callback_settlement_fields_witness :
    extractEnvelope c5Body = some c5Env
    ∧ findTransaction c5Env c5Db.transactions = some c5Tx
    ∧ c5Tx.status ≠ "Completed"
    ∧ pyIntOpt c5Env.resultCode = some 0
    ∧ c5Db.payments.any (fun p => p.mpesa_transaction == some c5Tx.id) = false
    ∧ c5Tx.transaction_date = Option.none
    ∧ parseTxDate (metaGet c5Env.meta "TransactionDate") = some ⟨2023, 12, 9, 20, 30, 45⟩
    ∧ ∃ db1 pay, mpesa_callback ⟨2024, 1, 1⟩ (some c5Body) c5Db = some (db1, successAck)
        ∧ db1.payments = c5Db.payments ++ [pay]
        ∧ pay.amount_paid = c5Tx.amount
        ∧ pay.student = c5Tx.student.id
        ∧ pay.mpesa_transaction = some c5Tx.id
        ∧ pay.payment_method = "M-Pesa"
        ∧ pay.date = (match parseTxDate (metaGet c5Env.meta "TransactionDate") with
                      | some dt => dt.dateOf
                      | Option.none => (⟨2024, 1, 1⟩ : PyDate))
        ∧ pay.balance_after
            = calculate_balance_after_payment c5Db.fees c5Db.payments c5Tx.student c5Tx.amount :=
  ⟨rfl, rfl, by decide, rfl, by decide, rfl, by decide,
   mpesa_callback_settlement_fields ⟨2024, 1, 1⟩ c5Body c5Env c5Db c5Tx rfl rfl
     (by decide) rfl (by decide) rfl⟩

/-! ## Claim C2 -/

/-- The Completed branch of `processTransaction`: only the audit fields are
re-stored. -/
theorem processTransaction_completed (today : PyDate) (body : PyVal) (env : Env)
    (tx : MPesaTransaction) (db : DB)
    (hC : tx.status = "Completed") :
    processTransaction today body env tx db
      = { db with transactions := updTx db.transactions (storeAudit body env tx) } := by
  simp only [processTransaction, storeAudit_status, hC]
  simp

theorem storeAudit_checkout (body : PyVal) (env : Env) (tx : MPesaTransaction) :
    (storeAudit body env tx).checkout_request_id = tx.checkout_request_id := rfl

/-- After the first successful delivery the updated transaction is still the
one `findTransaction` resolves for the same callback. -/
theorem findTransaction_after_success (body : PyVal) (env : Env) (db : DB)
    (tx : MPesaTransaction)
    (hfind : findTransaction env db.transactions = some tx) :
    findTransaction env (updTx db.transactions (applySuccess env (storeAudit body env tx)))
      = some (applySuccess env (storeAudit body env tx)) := by
  have hc := findTransaction_checkout_truthy hfind
  rw [findTransaction_eq_primary env db.transactions hc] at hfind
  rw [findTransaction_eq_primary env _ hc]
  have hid2 : tx.id = (applySuccess env (storeAudit body env tx)).id := by
    rw [applySuccess_id, storeAudit_id]
  have hftx : (fun t => if t.id = (applySuccess env (storeAudit body env tx)).id
      then applySuccess env (storeAudit body env tx) else t) tx
      = applySuccess env (storeAudit body env tx) := by
    simp only [if_pos hid2]
  have hp : (tx.checkout_request_id == some (pyStr env.checkout)) = true := by
    have h2 := List.find?_some hfind
    simpa using h2
  have hptx2 : (fun t => t.checkout_request_id == some (pyStr env.checkout))
      (applySuccess env (storeAudit body env tx)) = true := by
    simp only [applySuccess_checkout, storeAudit_checkout]
    exact hp
  have := find?_map_update
    (fun t => t.checkout_request_id == some (pyStr env.checkout))
    (fun t => if t.id = (applySuccess env (storeAudit body env tx)).id
              then applySuccess env (storeAudit body env tx) else t)
    db.transactions tx hfind (by rw [hftx]; exact hptx2)
    (by
      intro x
      by_cases hx : x.id = (applySuccess env (storeAudit body env tx)).id
      · right
        rw [hftx]
        simp only [if_pos hx]
      · left
        simp only [if_neg hx])
  rw [hftx] at this
  exact this

/-- Claim C2: delivering the same successful callback twice. First part:
from a not-yet-Completed transaction with no settlement, the first delivery
leaves exactly one settlement keyed to the transaction and the transaction
Completed, and the second delivery of the same body returns the database
completely unchanged (the audit fields are re-written with identical
values). Second part: the creation guard — when a settlement for the
transaction already exists, a successful delivery creates no payment. -/
theorem mpesa_callback_idempotent_settlement :
    (∀ (today1 today2 : PyDate) (body : PyVal) (env : Env) (db : DB) (tx : MPesaTransaction),
       extractEnvelope body = some env →
       pyIntOpt env.resultCode = some 0 →
       findTransaction env db.transactions = some tx →
       tx.status ≠ "Completed" →
       db.payments.countP (fun p => p.mpesa_transaction == some tx.id) = 0 →
       ∃ db1, mpesa_callback today1 (some body) db = some (db1, successAck)
         ∧ db1.payments.countP (fun p => p.mpesa_transaction == some tx.id) = 1
         ∧ (∀ t ∈ db1.transactions, t.id = tx.id → t.status = "Completed")
         ∧ mpesa_callback today2 (some body) db1 = some (db1, successAck))
    ∧ (∀ (today : PyDate) (body : PyVal) (env : Env) (db : DB) (tx : MPesaTransaction),
       extractEnvelope body = some env →
       pyIntOpt env.resultCode = some 0 →
       findTransaction env db.transactions = some tx →
       tx.status ≠ "Completed" →
       db.payments.any (fun p => p.mpesa_transaction == some tx.id) = true →
       ∃ db1, mpesa_callback today (some body) db = some (db1, successAck)
         ∧ db1.payments = db.payments) := by
  constructor
  · intro today1 today2 body env db tx hext hrc hfind hnc hcount
    have hguard : db.payments.any
        (fun p => p.mpesa_transaction == some (applySuccess env (storeAudit body env tx)).id)
        = false := by
      simp only [applySuccess_id, storeAudit_id]
      rw [List.any_eq_false]
      intro p hp
      have := List.countP_eq_zero.mp hcount p hp
      simpa using this
    rw [mpesa_callback_eq_process today1 body env db tx hext hfind,
        processTransaction_success today1 body env tx db hnc hrc,
        if_neg (by simp [hguard])]
    refine ⟨_, rfl, ?_, ?_, ?_⟩
    · show (db.payments ++ [settlementFor today1 _ _]).countP _ = 1
      rw [List.countP_append, hcount]
      simp [List.countP_cons, settlementFor, applySuccess_id, storeAudit_id]
    · intro t ht hid
      have hid2 : (applySuccess env (storeAudit body env tx)).id = tx.id := by
        rw [applySuccess_id, storeAudit_id]
      have := updTx_mem_id ht (hid.trans hid2.symm)
      subst this
      exact applySuccess_status env (storeAudit body env tx)
    · rw [mpesa_callback_eq_process today2 body env _
            (applySuccess env (storeAudit body env tx)) hext
            (by
              show findTransaction env (updTx db.transactions _) = _
              exact findTransaction_after_success body env db tx hfind),
          processTransaction_completed today2 body env _ _
            (applySuccess_status env (storeAudit body env tx)),
          storeAudit_applySuccess_storeAudit]
      show some (({ fees := db.fees,
                    transactions := updTx (updTx db.transactions _) _,
                    payments := _ } : DB), successAck) = _
      rw [updTx_idem]
  · intro today body env db tx hext hrc hfind hnc hexists
    have hguard : db.payments.any
        (fun p => p.mpesa_transaction == some (applySuccess env (storeAudit body env tx)).id)
        = true := by
      simp only [applySuccess_id, storeAudit_id]
      exact hexists
    rw [mpesa_callback_eq_process today body env db tx hext hfind,
        processTransaction_success today body env tx db hnc hrc,
        if_pos (by simp [hguard])]
    exact ⟨_, rfl, rfl⟩

def c2Tx : MPesaTransaction :=
  { id := 2, student := ⟨2, "Form 1"⟩, amount := 500, phone_number := "254712345678",
    status := "Pending", merchant_request_id := some "M2", checkout_request_id := some "C2",
    result_code := Option.none, result_description := Option.none,
    mpesa_receipt_number := Option.none, transaction_date := Option.none,
    callback_data := Option.none }

def c2Body : PyVal :=
  .dict [("Body", .dict [("stkCallback", .dict
    [("MerchantRequestID", .str "M2"), ("CheckoutRequestID", .str "C2"),
     ("ResultCode", .int 0), ("ResultDesc", .str "ok"),
     ("CallbackMetadata", .dict [("Item", .list
       [.dict [("Name", .str "Amount"), ("Value", .int 500)],
        .dict [("Name", .str "MpesaReceiptNumber"), ("Value", .str "NLJ7RT61SV")],
        .dict [("Name", .str "PhoneNumber"), ("Value", .int 254712345678)],
        .dict [("Name", .str "TransactionDate"), ("Value", .int 20231209203045)]])])])])]

def c2Env : Env :=
  ⟨.str "M2", .str "C2", .int 0, .str "ok",
   [(.str "Amount", .int 500), (.str "MpesaReceiptNumber", .str "NLJ7RT61SV"),
    (.str "PhoneNumber", .int 254712345678), (.str "TransactionDate", .int 20231209203045)]⟩

def c2Db : DB := { fees := [⟨"Form 1", 1000⟩], transactions := [c2Tx], payments := [] }

/-- Claim C2, witness: the concrete double delivery of the same successful
callback, plus the guard on a database that already holds a settlement for
the transaction. -/
theorem mpesa_callback_idempotent_settlement_witness :
    extractEnvelope c2Body = some c2Env
    ∧ pyIntOpt c2Env.resultCode = some 0
    ∧ findTransaction c2Env c2Db.transactions = some c2Tx
    ∧ c2Tx.status ≠ "Completed"
    ∧ c2Db.payments.countP (fun p => p.mpesa_transaction == some c2Tx.id) = 0
    ∧ (∃ db1, mpesa_callback ⟨2024, 1, 1⟩ (some c2Body) c2Db = some (db1, successAck)
        ∧ db1.payments.countP (fun p => p.mpesa_transaction == some c2Tx.id) = 1
        ∧ (∀ t ∈ db1.transactions, t.id = c2Tx.id → t.status = "Completed")
        ∧ mpesa_callback ⟨2024, 1, 2⟩ (some c2Body) db1 = some (db1, successAck)) :=
  ⟨rfl, rfl, rfl, by decide, by decide,
   mpesa_callback_idempotent_settlement.1 ⟨2024, 1, 1⟩ ⟨2024, 1, 2⟩ c2Body c2Env c2Db c2Tx
     rfl rfl rfl (by decide) (by decide)⟩

/-! ## Claim C3 -/

def c3Db : DB := { fees := [], transactions := [], payments := [] }

/-- Claim C3, exhibiting the bug. The always-acknowledge contract holds for
an unparsable body (the `json.loads` try/except ACKs), and `successAck` is
the required `\x7b"ResultCode": 0, "ResultDesc": "Accepted"\x7d`; but the
request body `null` — valid JSON that decodes to `None` — escapes the
try/except: `callback_data.get("Body", \x7b\x7d)` raises `AttributeError`
and the view answers HTTP 500, not ACK. -/
theorem mpesa_callback_ack_contract_bug :
    mpesa_callback ⟨2024, 1, 1⟩ Option.none c3Db = some (c3Db, successAck)
    ∧ successAck = ⟨0, "Accepted"⟩
    ∧ mpesa_callback ⟨2024, 1, 1⟩ (some PyVal.none) c3Db = Option.none
    ∧ mpesa_callback ⟨2024, 1, 1⟩ (some (PyVal.dict [("Body", PyVal.none)])) c3Db
        = Option.none :=
  ⟨rfl, rfl, rfl, rfl⟩

/-! ## Claim C4 -/

def c4Tx : MPesaTransaction :=
  { id := 4, student := ⟨4, "Form 1"⟩, amount := 500, phone_number := "254712345678",
    status := "Pending", merchant_request_id := Option.none, checkout_request_id := Option.none,
    result_code := Option.none, result_description := Option.none,
    mpesa_receipt_number := Option.none, transaction_date := Option.none,
    callback_data := Option.none }

def c4Req : PyVal := .dict [("Amount", .int 500), ("PhoneNumber", .str "254712345678")]

/-- An accepted synchronous gateway response. -/
def c4Resp : PyVal :=
  .dict [("ResponseCode", .str "0"), ("ResponseDescription", .str "Success. Request accepted for processing"),
         ("MerchantRequestID", .str "M1"), ("CheckoutRequestID", .str "C1"),
         ("CustomerMessage", .str "Success. Request accepted for processing")]

/-- Claim C4, counterexample. The claim says an accepted push
(`ResponseCode = "0"`) sets the transaction's status to Submitted. The code
stores the correlation ids but never writes any status on acceptance: the
transaction stays `Pending` (no `Submitted` state exists anywhere in the
code). -/
theorem stk_submit_submitted_cex :
    (stk_submit c4Tx c4Req c4Resp).map
        (fun t => (t.status, t.merchant_request_id, t.checkout_request_id))
      = some ("Pending", some "M1", some "C1")
    ∧ "Pending" ≠ "Submitted" :=
  ⟨rfl, by decide⟩

/-- Claim C4, amended. For a push submission whose synchronous response has
`ResponseCode = "0"`, the gateway-assigned `MerchantRequestID` and
`CheckoutRequestID` are stored on the transaction, but its status is left
unchanged — it remains `Pending`; the code has no `Submitted` state and no
`markSubmitted` operation. -/
theorem stk_submit_accepted
    (tx : MPesaTransaction) (req resp : PyVal) (m c d : PyVal)
    (hrc : pyGet resp "ResponseCode" .none = some (.str "0"))
    (hrd : pyGet resp "ResponseDescription" .none = some d)
    (hm : pyGet resp "MerchantRequestID" .none = some m)
    (hc : pyGet resp "CheckoutRequestID" .none = some c) :
    ∃ tx1, stk_submit tx req resp = some tx1
      ∧ tx1.status = tx.status
      ∧ tx1.merchant_request_id = pyStrOpt m
      ∧ tx1.checkout_request_id = pyStrOpt c
      ∧ tx1.amount = tx.amount
      ∧ tx1.phone_number = tx.phone_number := by
  simp only [stk_submit, record_stk_response, handle_stk_response, hrc, hrd, hm, hc,
             Option.bind_eq_bind, Option.some_bind]
  simp

/-- Claim C4, witness: the concrete accepted response leaves the fresh
Pending transaction Pending, with M1/C1 stored. -/
theorem stk_submit_accepted_witness :
    pyGet c4Resp "ResponseCode" .none = some (.str "0")
    ∧ pyGet c4Resp "MerchantRequestID" .none = some (.str "M1")
    ∧ pyGet c4Resp "CheckoutRequestID" .none = some (.str "C1")
    ∧ c4Tx.status = "Pending"
    ∧ ∃ tx1, stk_submit c4Tx c4Req c4Resp = some tx1
        ∧ tx1.status = c4Tx.status
        ∧ tx1.merchant_request_id = pyStrOpt (.str "M1")
        ∧ tx1.checkout_request_id = pyStrOpt (.str "C1")
        ∧ tx1.amount = c4Tx.amount
        ∧ tx1.phone_number = c4Tx.phone_number :=
  ⟨rfl, rfl, rfl, rfl,
   stk_submit_accepted c4Tx c4Req c4Resp (.str "M1") (.str "C1")
     (.str "Success. Request accepted for processing") rfl rfl rfl rfl⟩

/-! ## Claim C6 -/

def c6Fees : List FeeStructure := [⟨"Form 1", 100⟩]

def c6Payments : List Payment :=
  [{ student := 1, amount_paid := 150, date := ⟨2024, 1, 1⟩, balance_after := 0,
     payment_method := "Cash", mpesa_transaction := Option.none }]

def c6Student : Student := ⟨1, "Form 1"⟩

/-- Claim C6: the displayed outstanding balance is
`requiredAmount - settledTotal`, unclamped (negative on overpayment), while
the balance stamped onto a new settlement is
`max(0, requiredAmount - (settledTotal + incomingAmount))`, clamped at zero;
on concrete overpaid data the former is negative while the latter is zero. -/
theorem balance_formulas_distinct :
    (∀ (fees : List FeeStructure) (payments : List Payment) (s : Student),
       student_fee_detail_balance fees payments s
         = requiredAmountFor fees s - totalPaidFor payments s)
    ∧ (∀ (fees : List FeeStructure) (payments : List Payment) (s : Student) (amt : Rat),
       calculate_balance_after_payment fees payments s amt
         = max 0 (requiredAmountFor fees s - (totalPaidFor payments s + amt)))
    ∧ student_fee_detail_balance c6Fees c6Payments c6Student < 0
    ∧ calculate_balance_after_payment c6Fees c6Payments c6Student 10 = 0
    ∧ student_fee_detail_balance c6Fees c6Payments c6Student
        ≠ calculate_balance_after_payment c6Fees c6Payments c6Student 10 := by
  refine ⟨fun _ _ _ => rfl, fun fees payments s amt => ?_, ?_, ?_, ?_⟩
  · rw [calculate_balance_after_payment, max_comm]
  · norm_num [student_fee_detail_balance, requiredAmountFor, totalPaidFor, c6Fees, c6Payments,
      c6Student, List.find?]
  · norm_num [calculate_balance_after_payment, requiredAmountFor, totalPaidFor, c6Fees,
      c6Payments, c6Student, List.find?, max_def]
  · norm_num [student_fee_detail_balance, calculate_balance_after_payment, requiredAmountFor,
      totalPaidFor, c6Fees, c6Payments, c6Student, List.find?, max_def]

/-! ## Claim C7 -/

/-- Claim C7: phone normalization is a total function mapping all the
equivalent input forms to `254712345678`, and the empty input to the empty
output (no exception is raised; the caller checks for emptiness). -/
theorem normalize_msisdn_equivalence_classes :
    _normalize_msisdn "0712345678" = "254712345678"
    ∧ _normalize_msisdn "+254712345678" = "254712345678"
    ∧ _normalize_msisdn "712345678" = "254712345678"
    ∧ _normalize_msisdn "254712345678" = "254712345678"
    ∧ _normalize_msisdn "" = "" := by
  refine ⟨by decide, by decide, by decide, by decide, rfl⟩

/-! ## Claim C8 -/

/-- Claim C8: in push-request construction the amount is coerced by
truncation toward zero — `Decimal("50.70")`, i.e. `507/10`, yields payload
`Amount = 50` — and when the coerced integer is below 1 the call raises the
amount validation error before any payload is built. -/
theorem initiate_stk_push_amount_truncation :
    (∀ (cfg : MpesaConfig) (ts : String) (tok : Except String String)
       (phone ref desc cb : String) (q : Rat),
       _normalize_msisdn phone ≠ "" →
       decTrunc q < 1 →
       initiate_stk_push cfg ts tok phone q ref desc cb
         = Except.error "Amount must be at least 1")
    ∧ (∀ (cfg : MpesaConfig) (ts t : String) (phone ref desc cb : String),
       _normalize_msisdn phone ≠ "" →
       resolve_callback cfg cb ≠ "" →
       ∃ p, initiate_stk_push cfg ts (Except.ok t) phone (mkRat 507 10) ref desc cb
              = Except.ok p
         ∧ p.Amount = 50
         ∧ p.PhoneNumber = _normalize_msisdn phone) := by
  constructor
  · intro cfg ts tok phone ref desc cb q hphone htrunc
    simp only [initiate_stk_push, if_neg hphone, if_pos htrunc]
    rfl
  · intro cfg ts t phone ref desc cb hphone hcb
    have htrunc : ¬ decTrunc (mkRat 507 10) < 1 := by decide
    simp only [initiate_stk_push, if_neg hphone, if_neg htrunc, if_neg hcb]
    refine ⟨_, rfl, ?_, rfl⟩
    show decTrunc (mkRat 507 10) = 50
    decide

/-- Claim C8, witness: a concrete configuration where amount 0 is rejected
with the validation error and amount 50.70 produces payload `Amount = 50`. -/
theorem initiate_stk_push_amount_truncation_witness :
    _normalize_msisdn "0712345678" ≠ ""
    ∧ decTrunc 0 < 1
    ∧ initiate_stk_push ⟨"174379", "passkey", Option.none⟩ "20231209203045" (Except.ok "tok")
        "0712345678" 0 "Student_A1" "School fees" "https://cb.example/mpesa/"
        = Except.error "Amount must be at least 1"
    ∧ resolve_callback ⟨"174379", "passkey", Option.none⟩ "https://cb.example/mpesa/" ≠ ""
    ∧ ∃ p, initiate_stk_push ⟨"174379", "passkey", Option.none⟩ "20231209203045"
          (Except.ok "tok") "0712345678" (mkRat 507 10) "Student_A1" "School fees"
          "https://cb.example/mpesa/"
          = Except.ok p
        ∧ p.Amount = 50
        ∧ p.PhoneNumber = _normalize_msisdn "0712345678" :=
  ⟨by decide, by decide,
   initiate_stk_push_amount_truncation.1 ⟨"174379", "passkey", Option.none⟩ "20231209203045"
     (Except.ok "tok") "0712345678" "Student_A1" "School fees" "https://cb.example/mpesa/" 0
     (by decide) (by decide),
   by decide,
   initiate_stk_push_amount_truncation.2 ⟨"174379", "passkey", Option.none⟩ "20231209203045"
     "tok" "0712345678" "Student_A1" "School fees" "https://cb.example/mpesa/"
     (by decide) (by decide)⟩

end Ujumbe
